import Mathlib

/-
Verification of the omm bulk-copy library (CPU-feature-aware memcpy).

Shallow embedding conventions:
* Memory is a byte-addressed map `Nat → Nat`; pointers are plain addresses.
* `memCopy d s n m` is the effect of the platform bulk-copy primitive
  (`std::memcpy` / `__builtin_memcpy`) copying `n` bytes from address `s`
  to address `d`: every byte of the destination range takes the value the
  source range held in `m`.  Within one primitive call the source bytes are
  read from the pre-call memory, which matches the C contract for
  non-overlapping ranges (overlap is undefined behaviour in the source).
* A non-temporal vector store of `w` bytes has the same byte-level effect
  as copying `w` bytes; prefetch hints and the trailing store fence have no
  effect on memory contents in a sequential model, so they are not modelled.
* Sizes are `Nat`; `size_t` wrap-around never occurs on the executed paths
  because every subtraction in the kernels is guarded (proved below under
  the stated threshold hypotheses).
-/

/-- Byte-addressed memory: address to byte value. -/
abbrev Mem : Type := Nat → Nat

/-- Effect of the platform bulk-copy primitive (`__builtin_memcpy(d, s, n)`)
on memory `m`, for non-overlapping ranges: bytes `[d, d+n)` take the values
of bytes `[s, s+n)` of `m`; all other bytes keep their value. -/
def memCopy (d s n : Nat) (m : Mem) : Mem :=
  fun a => if d ≤ a ∧ a < d + n then m (s + (a - d)) else m a

theorem memCopy_zero (d s : Nat) (m : Mem) : memCopy d s 0 m = m := by
  funext a
  simp only [memCopy]
  split_ifs with h
  · exact absurd h (by omega)
  · rfl

theorem memCopy_frame (d s n : Nat) (m : Mem) (a : Nat)
    (h : a < d ∨ d + n ≤ a) : memCopy d s n m a = m a := by
  simp only [memCopy]
  split_ifs with h1
  · exact absurd h1 (by omega)
  · rfl

theorem memCopy_in (d s n : Nat) (m : Mem) (a : Nat)
    (h : d ≤ a ∧ a < d + n) : memCopy d s n m a = m (s + (a - d)) := by
  simp only [memCopy]
  rw [if_pos h]

/-- Two adjacent bulk copies with matching source offsets fuse into one,
provided the total source range does not overlap the total destination
range (so the second copy reads unmodified source bytes). -/
theorem memCopy_merge (d s n1 n2 : Nat) (m : Mem)
    (hsep : s + (n1 + n2) ≤ d ∨ d + (n1 + n2) ≤ s) :
    memCopy (d + n1) (s + n1) n2 (memCopy d s n1 m) = memCopy d s (n1 + n2) m := by
  funext a
  simp only [memCopy]
  split_ifs with h1 h2 h3 h4 h5 <;>
    first
      | rfl
      | (exfalso; omega)
      | (congr 1; omega)

/-- A run of `k` consecutive `w`-byte-wide stores (each loading `w` source
bytes and streaming them to the destination), destination and source
advancing by `w` after each store.  This is the byte-level effect of the
unrolled `_mm512_stream_si512` / `_mm256_stream_si256` store sequences and,
with `w = 1`, of the `*d++ = *s++` byte loops in `memcpy_impl.hpp`. -/
def streamLoop (w : Nat) : Nat → Nat → Nat → Mem → Mem
  | _, _, 0, m => m
  | d, s, k + 1, m => streamLoop w (d + w) (s + w) k (memCopy d s w m)

theorem streamLoop_frame (w k : Nat) : ∀ (d s : Nat) (m : Mem) (a : Nat),
    (a < d ∨ d + w * k ≤ a) → streamLoop w d s k m a = m a := by
  induction k with
  | zero => intro d s m a _; rfl
  | succ k ih =>
    intro d s m a h
    rw [Nat.mul_succ] at h
    show streamLoop w (d + w) (s + w) k (memCopy d s w m) a = m a
    rw [ih (d + w) (s + w) (memCopy d s w m) a (by omega)]
    exact memCopy_frame d s w m a (by omega)

theorem streamLoop_eq (w k : Nat) : ∀ (d s : Nat) (m : Mem),
    (s + w * k ≤ d ∨ d + w * k ≤ s) →
    streamLoop w d s k m = memCopy d s (w * k) m := by
  induction k with
  | zero =>
    intro d s m _
    show m = memCopy d s (w * 0) m
    rw [Nat.mul_zero, memCopy_zero]
  | succ k ih =>
    intro d s m hsep
    rw [Nat.mul_succ] at hsep ⊢
    show streamLoop w (d + w) (s + w) k (memCopy d s w m) = memCopy d s (w * k + w) m
    rw [ih (d + w) (s + w) (memCopy d s w m) (by omega)]
    have h := memCopy_merge d s w (w * k) m (by omega)
    rw [h, Nat.add_comm w (w * k)]

/-- Outer vectorized loop: `n` blocks, each block being `UNROLL_FACTOR = 8`
unrolled `w`-byte stream stores; destination and source advance by
`BLOCK_SIZE = w * 8` bytes per block (the per-block prefetch hints have no
memory effect). -/
def blockLoop (w : Nat) : Nat → Nat → Nat → Mem → Mem
  | _, _, 0, m => m
  | d, s, n + 1, m => blockLoop w (d + w * 8) (s + w * 8) n (streamLoop w d s 8 m)

theorem blockLoop_frame (w n : Nat) : ∀ (d s : Nat) (m : Mem) (a : Nat),
    (a < d ∨ d + w * 8 * n ≤ a) → blockLoop w d s n m a = m a := by
  induction n with
  | zero => intro d s m a _; rfl
  | succ n ih =>
    intro d s m a h
    rw [Nat.mul_succ] at h
    show blockLoop w (d + w * 8) (s + w * 8) n (streamLoop w d s 8 m) a = m a
    rw [ih (d + w * 8) (s + w * 8) (streamLoop w d s 8 m) a (by omega)]
    exact streamLoop_frame w 8 d s m a (by omega)

theorem blockLoop_eq (w n : Nat) : ∀ (d s : Nat) (m : Mem),
    (s + w * 8 * n ≤ d ∨ d + w * 8 * n ≤ s) →
    blockLoop w d s n m = memCopy d s (w * 8 * n) m := by
  induction n with
  | zero =>
    intro d s m _
    show m = memCopy d s (w * 8 * 0) m
    rw [Nat.mul_zero, memCopy_zero]
  | succ n ih =>
    intro d s m hsep
    rw [Nat.mul_succ] at hsep ⊢
    show blockLoop w (d + w * 8) (s + w * 8) n (streamLoop w d s 8 m)
        = memCopy d s (w * 8 * n + w * 8) m
    rw [streamLoop_eq w 8 d s m (by omega)]
    rw [ih (d + w * 8) (s + w * 8) (memCopy d s (w * 8) m) (by omega)]
    have h := memCopy_merge d s (w * 8) (w * 8 * n) m (by omega)
    rw [h, Nat.add_comm (w * 8) (w * 8 * n)]

/-- Alignment prologue length: `(ALIGNMENT - (dest & (ALIGNMENT-1))) & (ALIGNMENT-1)`.
For a power-of-two `align`, `x & (align-1) = x % align`, so this is
`(align - dest % align) % align`: the number of leading bytes needed to
bring the destination up to an `align`-byte boundary. -/
def initialBytes (d align : Nat) : Nat := (align - d % align) % align

theorem initialBytes_lt (d align : Nat) (h : 0 < align) : initialBytes d align < align :=
  Nat.mod_lt _ h

/-- `size & ~(blk - 1)` for a power-of-two block size `blk` and a 64-bit
`size`: the largest multiple of `blk` that is `≤ size`, i.e. `size - size % blk`. -/
def vecSize (sz blk : Nat) : Nat := sz - sz % blk

theorem vecSize_le (sz blk : Nat) : vecSize sz blk ≤ sz := Nat.sub_le _ _

theorem vecSize_dvd (sz blk : Nat) : blk ∣ vecSize sz blk := by
  have h := Nat.div_add_mod sz blk
  exact ⟨sz / blk, by unfold vecSize; omega⟩

/-- The shared large-size copy path of the vector kernels
(`memcpy_avx512.h` lines 56-104 with `w = 64`, `memcpy_avx2.h` lines
49-96 with `w = 32`): alignment prologue via the bulk-copy primitive,
then `vecSize` bytes in blocks of `w * 8` (8 unrolled `w`-byte streaming
stores per block), then the `< BLOCK_SIZE` tail via the bulk-copy
primitive.  The store fence at the end has no memory effect. -/
def largeCopy (w dest src size : Nat) (m : Mem) : Mem :=
  memCopy (dest + initialBytes dest w + vecSize (size - initialBytes dest w) (w * 8))
          (src + initialBytes dest w + vecSize (size - initialBytes dest w) (w * 8))
          (size - initialBytes dest w - vecSize (size - initialBytes dest w) (w * 8))
    (blockLoop w (dest + initialBytes dest w) (src + initialBytes dest w)
      (vecSize (size - initialBytes dest w) (w * 8) / (w * 8))
      (memCopy dest src (initialBytes dest w) m))

theorem largeCopy_eq (w dest src size : Nat) (m : Mem)
    (hib : initialBytes dest w ≤ size)
    (hsep : src + size ≤ dest ∨ dest + size ≤ src) :
    largeCopy w dest src size m = memCopy dest src size m := by
  unfold largeCopy
  set ib := initialBytes dest w with hib_def
  set vec := vecSize (size - ib) (w * 8) with hvec_def
  have hvle : vec ≤ size - ib := vecSize_le _ _
  have hmul : w * 8 * (vec / (w * 8)) = vec :=
    Nat.mul_div_cancel' (vecSize_dvd _ _)
  have hsepb : (src + ib) + w * 8 * (vec / (w * 8)) ≤ dest + ib ∨
      (dest + ib) + w * 8 * (vec / (w * 8)) ≤ src + ib := by
    rw [hmul]; omega
  rw [blockLoop_eq w (vec / (w * 8)) (dest + ib) (src + ib) (memCopy dest src ib m) hsepb]
  rw [hmul]
  have hm1 := memCopy_merge dest src ib vec m (by omega)
  rw [hm1]
  rw [show dest + ib + vec = dest + (ib + vec) from by omega]
  rw [show src + ib + vec = src + (ib + vec) from by omega]
  have hm2 := memCopy_merge dest src (ib + vec) (size - ib - vec) m (by omega)
  rw [hm2]
  rw [show ib + vec + (size - ib - vec) = size from by omega]

theorem largeCopy_frame (w dest src size : Nat) (m : Mem) (a : Nat)
    (hib : initialBytes dest w ≤ size)
    (h : a < dest ∨ dest + size ≤ a) :
    largeCopy w dest src size m a = m a := by
  unfold largeCopy
  set ib := initialBytes dest w with hib_def
  set vec := vecSize (size - ib) (w * 8) with hvec_def
  have hvle : vec ≤ size - ib := vecSize_le _ _
  have hmul : w * 8 * (vec / (w * 8)) = vec :=
    Nat.mul_div_cancel' (vecSize_dvd _ _)
  rw [memCopy_frame _ _ _ _ _ (by omega)]
  have hcond : a < dest + ib ∨ (dest + ib) + w * 8 * (vec / (w * 8)) ≤ a := by
    rw [hmul]; omega
  rw [blockLoop_frame w (vec / (w * 8)) (dest + ib) (src + ib) _ a hcond]
  exact memCopy_frame dest src ib m a (by omega)

/-- Fast-path condition of `omm::memcpy_avx512` in
`src/include/omm/detail/memcpy/memcpy_avx512.h` line 51:
`size < G_L3_CACHE_SIZE` (strict). -/
def avx512_h_fastPath (size L3 : Nat) : Bool := size < L3

/-- Fast-path condition of `omm::memcpy_avx2` in
`src/include/omm/detail/memcpy/memcpy_avx2.h` line 44:
`size <= G_L3_CACHE_SIZE`. -/
def avx2_h_fastPath (size L3 : Nat) : Bool := size ≤ L3

/-- Fast-path condition of `omm::memcpy_avx512` in
`src/include/omm/memcpy/memcpy_avx512.hpp` line 44:
`size <= G_L3_CACHE_SIZE`. -/
def avx512_hpp_fastPath (size L3 : Nat) : Bool := size ≤ L3

/-- The AVX-512 kernel of `src/include/omm/detail/memcpy/memcpy_avx512.h`
(lines 49-105).  `L3` is the value of `G_L3_CACHE_SIZE` for this process.
ALIGNMENT = 64, UNROLL_FACTOR = 8, BLOCK_SIZE = 512. -/
def memcpy_avx512_h (dest src size L3 : Nat) (m : Mem) : Mem :=
  if avx512_h_fastPath size L3 then memCopy dest src size m
  else largeCopy 64 dest src size m

/-- The AVX2 kernel of `src/include/omm/detail/memcpy/memcpy_avx2.h`
(lines 42-97).  ALIGNMENT = 32, UNROLL_FACTOR = 8, BLOCK_SIZE = 256. -/
def memcpy_avx2_h (dest src size L3 : Nat) (m : Mem) : Mem :=
  if avx2_h_fastPath size L3 then memCopy dest src size m
  else largeCopy 32 dest src size m

/-- Bitwise complement of a `size_t` value within 64 bits: for `x < 2^64`,
`~x = 2^64 - 1 - x`. -/
def not64 (x : Nat) : Nat := 2 ^ 64 - 1 - x % 2 ^ 64

/-- `sz & ~(blk - 1)` computed exactly as 64-bit `size_t` arithmetic:
`blk - 1` wraps modulo `2^64` and the complement is taken within 64 bits.
Needed for `memcpy_avx512.hpp`, where `BLOCK_SIZE = 4 * G_CACHE_LINE_SIZE`
is a runtime value rather than a compile-time power of two. -/
def vecSizeMask (sz blk : Nat) : Nat :=
  Nat.land sz (not64 ((blk + (2 ^ 64 - 1)) % 2 ^ 64))

/-- The outer `while (s < s_end)` loop of `memcpy_avx512.hpp` lines 69-81,
run for `n` iterations: each iteration issues 64-byte loads/streaming
stores at offsets `0, 64, 128, …` while the offset is below `BLOCK_SIZE`
(`blk`) — that is `⌈blk / 64⌉` consecutive 64-byte stores — then advances
destination and source by `blk`.  The prefetch hints have no memory
effect. -/
def hppLoop (blk : Nat) : Nat → Nat → Nat → Mem → Mem
  | _, _, 0, m => m
  | d, s, n + 1, m => hppLoop blk (d + blk) (s + blk) n (streamLoop 64 d s ((blk + 63) / 64) m)

/-- The AVX-512 kernel variant of `src/include/omm/memcpy/memcpy_avx512.hpp`
(lines 42-90).  `L3` is `G_L3_CACHE_SIZE` and `cl` is `G_CACHE_LINE_SIZE`.
Fast path for `size ≤ L3` (line 44); otherwise an alignment prologue to a
64-byte boundary, then `vec_size = size & ~(BLOCK_SIZE - 1)` bytes (with
`BLOCK_SIZE = 4 * cl`, a runtime value) in `⌈vec_size / BLOCK_SIZE⌉`
iterations of the while loop, then the remaining `size - vec_size` bytes
via the bulk-copy primitive at the pointers the loop advanced to. -/
def memcpy_avx512_hpp (dest src size L3 cl : Nat) (m : Mem) : Mem :=
  if avx512_hpp_fastPath size L3 then memCopy dest src size m
  else
    memCopy
      (dest + initialBytes dest 64 +
        (vecSizeMask (size - initialBytes dest 64) (cl * 4) + (cl * 4) - 1) / (cl * 4) * (cl * 4))
      (src + initialBytes dest 64 +
        (vecSizeMask (size - initialBytes dest 64) (cl * 4) + (cl * 4) - 1) / (cl * 4) * (cl * 4))
      (size - initialBytes dest 64 - vecSizeMask (size - initialBytes dest 64) (cl * 4))
      (hppLoop (cl * 4) (dest + initialBytes dest 64) (src + initialBytes dest 64)
        ((vecSizeMask (size - initialBytes dest 64) (cl * 4) + (cl * 4) - 1) / (cl * 4))
        (memCopy dest src (initialBytes dest 64) m))

theorem memcpy_avx512_h_eq (dest src size L3 : Nat) (m : Mem)
    (hL3 : 64 ≤ L3)
    (hsep : src + size ≤ dest ∨ dest + size ≤ src) :
    memcpy_avx512_h dest src size L3 m = memCopy dest src size m := by
  unfold memcpy_avx512_h
  by_cases h : avx512_h_fastPath size L3 = true
  · rw [if_pos h]
  · rw [if_neg h]
    have hbig : ¬ size < L3 := by
      simpa [avx512_h_fastPath] using h
    have hlt := initialBytes_lt dest 64 (by omega)
    exact largeCopy_eq 64 dest src size m (by omega) hsep

theorem memcpy_avx2_h_eq (dest src size L3 : Nat) (m : Mem)
    (hL3 : 64 ≤ L3)
    (hsep : src + size ≤ dest ∨ dest + size ≤ src) :
    memcpy_avx2_h dest src size L3 m = memCopy dest src size m := by
  unfold memcpy_avx2_h
  by_cases h : avx2_h_fastPath size L3 = true
  · rw [if_pos h]
  · rw [if_neg h]
    have hbig : ¬ size ≤ L3 := by
      simpa [avx2_h_fastPath] using h
    have hlt := initialBytes_lt dest 32 (by omega)
    exact largeCopy_eq 32 dest src size m (by omega) hsep

theorem memcpy_avx512_h_frame (dest src size L3 : Nat) (m : Mem) (a : Nat)
    (hL3 : 64 ≤ L3)
    (h : a < dest ∨ dest + size ≤ a) :
    memcpy_avx512_h dest src size L3 m a = m a := by
  unfold memcpy_avx512_h
  by_cases hf : avx512_h_fastPath size L3 = true
  · rw [if_pos hf]
    exact memCopy_frame dest src size m a h
  · rw [if_neg hf]
    have hbig : ¬ size < L3 := by
      simpa [avx512_h_fastPath] using hf
    have hlt := initialBytes_lt dest 64 (by omega)
    exact largeCopy_frame 64 dest src size m a (by omega) h

theorem memcpy_avx2_h_frame (dest src size L3 : Nat) (m : Mem) (a : Nat)
    (hL3 : 64 ≤ L3)
    (h : a < dest ∨ dest + size ≤ a) :
    memcpy_avx2_h dest src size L3 m a = m a := by
  unfold memcpy_avx2_h
  by_cases hf : avx2_h_fastPath size L3 = true
  · rw [if_pos hf]
    exact memCopy_frame dest src size m a h
  · rw [if_neg hf]
    have hbig : ¬ size ≤ L3 := by
      simpa [avx2_h_fastPath] using hf
    have hlt := initialBytes_lt dest 32 (by omega)
    exact largeCopy_frame 32 dest src size m a (by omega) h

/-- Compiler family, distinguishing the branches of the preprocessor
conditionals in `src/include/omm/detail/cpu_features.h` lines 202-228:
GCC (`__GNUC__` and not `__clang__`), Clang, MSVC. -/
inductive Compiler
  | gcc
  | clang
  | msvc
deriving DecidableEq

/-- Build- and machine-configuration facts the preprocessor conditionals
and runtime queries depend on: whether `__AVX512F__` / `__AVX2__` were
defined at compile time, which compiler family built the binary, and
whether the executing CPU actually supports AVX-512F / AVX2 (the value
`__builtin_cpu_supports` reports at run time). -/
structure BuildCpu where
  compiledAVX512F : Bool
  compiledAVX2 : Bool
  compiler : Compiler
  cpuAVX512F : Bool
  cpuAVX2 : Bool
deriving DecidableEq

/-- `omm::detail::cpu_supports_avx512f` from
`src/include/omm/detail/cpu_features.h` lines 202-212: under GCC (with
`__AVX512F__` defined) it calls `__builtin_cpu_supports("avx512f")`;
under Clang/MSVC (with `__AVX512F__` defined) it returns `true`
unconditionally; with `__AVX512F__` undefined it returns `false`. -/
def cpu_supports_avx512f (c : BuildCpu) : Bool :=
  if c.compiledAVX512F then
    match c.compiler with
    | Compiler.gcc => c.cpuAVX512F
    | Compiler.clang => true
    | Compiler.msvc => true
  else false

/-- `omm::detail::cpu_supports_avx2` from
`src/include/omm/detail/cpu_features.h` lines 218-228, same shape. -/
def cpu_supports_avx2 (c : BuildCpu) : Bool :=
  if c.compiledAVX2 then
    match c.compiler with
    | Compiler.gcc => c.cpuAVX2
    | Compiler.clang => true
    | Compiler.msvc => true
  else false

/-- The three copy kernels `omm::memcpy` (in `src/include/omm/memcpy.h`)
can route to: `memcpy_avx512`, `memcpy_avx2`, `memcpy_standard`. -/
inductive Kernel
  | KAVX512
  | KAVX2
  | KStandard
deriving DecidableEq

/-- `omm::detail::get_best_memcpy_impl` from `src/include/omm/memcpy.h`
lines 93-105: behind `#ifdef __AVX512F__`, return the AVX-512 kernel if
`cpu_supports_avx512f()`; behind `#ifdef __AVX2__`, return the AVX2
kernel if `cpu_supports_avx2()`; otherwise `memcpy_standard`. -/
def get_best_memcpy_impl (c : BuildCpu) : Kernel :=
  if c.compiledAVX512F && cpu_supports_avx512f c then Kernel.KAVX512
  else if c.compiledAVX2 && cpu_supports_avx2 c then Kernel.KAVX2
  else Kernel.KStandard

/-- The caller-supplied implementation choice (`omm::MemcpyImpl`). -/
inductive MemcpyImpl
  | Auto
  | AVX512
  | AVX2
  | Standard
deriving DecidableEq

/-- The kernel the `switch` in `omm::memcpy` (`src/include/omm/memcpy.h`
lines 116-138) routes a call to: explicit `AVX512` / `AVX2` requests fall
back to `memcpy_standard` exactly when the corresponding `#ifdef` is
absent (the kernel was not compiled in); no runtime CPU check is done for
explicit requests; `Auto` consults `get_best_memcpy_impl`. -/
def dispatch (impl : MemcpyImpl) (c : BuildCpu) : Kernel :=
  match impl with
  | MemcpyImpl.AVX512 => if c.compiledAVX512F then Kernel.KAVX512 else Kernel.KStandard
  | MemcpyImpl.AVX2 => if c.compiledAVX2 then Kernel.KAVX2 else Kernel.KStandard
  | MemcpyImpl.Standard => Kernel.KStandard
  | MemcpyImpl.Auto => get_best_memcpy_impl c

/-- Memory effect of running one of the three kernels of `memcpy.h`
(`memcpy_standard` is `std::memcpy`, modelled by `memCopy`). -/
def runKernel (k : Kernel) (dest src size L3 : Nat) (m : Mem) : Mem :=
  match k with
  | Kernel.KAVX512 => memcpy_avx512_h dest src size L3 m
  | Kernel.KAVX2 => memcpy_avx2_h dest src size L3 m
  | Kernel.KStandard => memCopy dest src size m

/-- `omm::memcpy(dst, src, size, impl)` from `src/include/omm/memcpy.h`
lines 110-139, for raw pointer arguments (the template helpers reduce to
the identity on raw pointers and the given size). -/
def ommMemcpy (impl : MemcpyImpl) (c : BuildCpu) (dest src size L3 : Nat) (m : Mem) : Mem :=
  runKernel (dispatch impl c) dest src size L3 m

theorem runKernel_eq (k : Kernel) (dest src size L3 : Nat) (m : Mem)
    (hL3 : 64 ≤ L3)
    (hsep : src + size ≤ dest ∨ dest + size ≤ src) :
    runKernel k dest src size L3 m = memCopy dest src size m := by
  cases k with
  | KAVX512 => exact memcpy_avx512_h_eq dest src size L3 m hL3 hsep
  | KAVX2 => exact memcpy_avx2_h_eq dest src size L3 m hL3 hsep
  | KStandard => rfl

theorem runKernel_frame (k : Kernel) (dest src size L3 : Nat) (m : Mem) (a : Nat)
    (hL3 : 64 ≤ L3)
    (h : a < dest ∨ dest + size ≤ a) :
    runKernel k dest src size L3 m a = m a := by
  cases k with
  | KAVX512 => exact memcpy_avx512_h_frame dest src size L3 m a hL3 h
  | KAVX2 => exact memcpy_avx2_h_frame dest src size L3 m a hL3 h
  | KStandard => exact memCopy_frame dest src size m a h

/-- Per-call feature-query count of `get_best_memcpy_impl`
(`src/include/omm/memcpy.h` lines 93-105): with `__AVX512F__` compiled in
the function evaluates `cpu_supports_avx512f()`; if that branch is absent
or returns `false` and `__AVX2__` is compiled in it evaluates
`cpu_supports_avx2()`. -/
def get_best_queries (c : BuildCpu) : Nat :=
  (if c.compiledAVX512F then 1 else 0) +
  (if c.compiledAVX512F && cpu_supports_avx512f c then 0
   else if c.compiledAVX2 then 1 else 0)

/-- Observable state of a process for the `Auto` path of `memcpy.h`:
the running total of `cpu_supports_*` evaluations performed. -/
structure AutoState where
  queryCount : Nat
deriving DecidableEq

/-- One `Auto` call through `omm::memcpy` / `omm::memcpy_auto` in
`src/include/omm/memcpy.h` (lines 134-137 and 141-143): the call invokes
`detail::get_best_memcpy_impl()` afresh, which re-evaluates the feature
predicates; there is no memoized state in this translation unit. -/
def memcpy_auto_call (c : BuildCpu) (st : AutoState) : Kernel × AutoState :=
  (get_best_memcpy_impl c, ⟨st.queryCount + get_best_queries c⟩)

/-- `n` successive `Auto` calls in one process. -/
def autoCalls (c : BuildCpu) : Nat → AutoState → AutoState
  | 0, st => st
  | n + 1, st => autoCalls c n (memcpy_auto_call c st).2

/-- Kernel set of the `memcpy_impl.hpp` variant
(`detail::memcpy_avx512`, `detail::memcpy_avx2`, `detail::standard_memcpy`). -/
inductive ImplKernel
  | I512
  | I256
  | IStd
deriving DecidableEq

/-- `omm::detail::memcpy_avx512` from
`src/include/omm/memcpy/memcpy_impl.hpp` lines 66-123: the entire body is
commented out, so the function writes nothing and returns; memory is
unchanged. -/
def impl_memcpy_avx512 (dst src size : Nat) (m : Mem) : Mem := m

/-- `omm::detail::memcpy_avx2` from
`src/include/omm/memcpy/memcpy_impl.hpp` lines 125-182: sizes `≤ 32` are
copied by a `*d++ = *s++` byte loop (`streamLoop 1`); otherwise a byte-loop
alignment prologue to a 32-byte boundary, 256-byte blocks of 8 unrolled
32-byte streaming stores, and a byte-loop tail. -/
def impl_memcpy_avx2 (dst src size : Nat) (m : Mem) : Mem :=
  if size ≤ 32 then streamLoop 1 dst src size m
  else
    streamLoop 1 (dst + initialBytes dst 32 + vecSize (size - initialBytes dst 32) 256)
                  (src + initialBytes dst 32 + vecSize (size - initialBytes dst 32) 256)
                  (size - initialBytes dst 32 - vecSize (size - initialBytes dst 32) 256)
      (blockLoop 32 (dst + initialBytes dst 32) (src + initialBytes dst 32)
        (vecSize (size - initialBytes dst 32) 256 / 256)
        (streamLoop 1 dst src (initialBytes dst 32) m))

/-- Memory effect of an `ImplKernel`
(`standard_memcpy` is `std::memcpy`, modelled by `memCopy`). -/
def runImplKernel (k : ImplKernel) (dst src size : Nat) (m : Mem) : Mem :=
  match k with
  | ImplKernel.I512 => impl_memcpy_avx512 dst src size m
  | ImplKernel.I256 => impl_memcpy_avx2 dst src size m
  | ImplKernel.IStd => memCopy dst src size m

/-- `detail::cpu_supports_avx512f` from
`src/include/omm/memcpy/memcpy_impl.hpp` lines 21-25: CPUID leaf 7,
`(cpu_info[1] & (1 << 16)) != 0` — bit 16 of EBX. -/
def impl_cpu_supports_avx512f (ebx : Nat) : Bool :=
  decide ((ebx &&& (1 <<< 16)) ≠ 0)

/-- `detail::cpu_supports_avx2` from
`src/include/omm/memcpy/memcpy_impl.hpp` lines 27-31: CPUID leaf 7,
`(cpu_info[1] & (1 << 5)) != 0` — bit 5 of EBX. -/
def impl_cpu_supports_avx2 (ebx : Nat) : Bool :=
  decide ((ebx &&& (1 <<< 5)) ≠ 0)

/-- `detail::initialize_best_memcpy_impl` from
`src/include/omm/memcpy/memcpy_impl.hpp` lines 191-199: the value stored
into the `best_memcpy_impl` global, as a function of the two CPUID bits. -/
def init_best_memcpy_impl (ebx : Nat) : ImplKernel :=
  if impl_cpu_supports_avx512f ebx then ImplKernel.I512
  else if impl_cpu_supports_avx2 ebx then ImplKernel.I256
  else ImplKernel.IStd

/-- `omm::memcpy(dst, src, size, impl)` from
`src/include/omm/memcpy/memcpy_impl.hpp` lines 212-232: explicit
`AVX512` / `AVX2` requests call `detail::memcpy_avx512` /
`detail::memcpy_avx2` unconditionally; `Auto` calls through the
`best_memcpy_impl` global (`best`), set once at static initialization. -/
def ommMemcpy_impl (impl : MemcpyImpl) (best : ImplKernel) (dst src size : Nat) (m : Mem) : Mem :=
  match impl with
  | MemcpyImpl.AVX512 => impl_memcpy_avx512 dst src size m
  | MemcpyImpl.AVX2 => impl_memcpy_avx2 dst src size m
  | MemcpyImpl.Standard => memCopy dst src size m
  | MemcpyImpl.Auto => runImplKernel best dst src size m

/-- `omm::detail::CacheInfo` from `src/include/omm/detail/cpu_features.h`
lines 27-31. -/
structure CacheInfo where
  size : Nat
  line_size : Nat
  ctype : Nat
deriving DecidableEq

def DEFAULT_L1_CACHE_SIZE : Nat := 32 * 1024
def DEFAULT_L2_CACHE_SIZE : Nat := 256 * 1024
def DEFAULT_L3_CACHE_SIZE : Nat := 8 * 1024 * 1024
def DEFAULT_CACHE_LINE_SIZE : Nat := 64

/-- Raw probe results for the four `lscpu` entries (L1d, L1i, L2, L3) on
the Linux path of `detect_cache_sizes` (`cpu_features.h` lines 119-138);
a field is 0 when the corresponding line was absent or failed to parse. -/
structure Probe where
  l1d : Nat
  l1i : Nat
  l2 : Nat
  l3 : Nat
  l1dLine : Nat
  l1iLine : Nat
  l2Line : Nat
  l3Line : Nat
deriving DecidableEq

/-- The default-substitution loop of `detect_cache_sizes`
(`src/include/omm/detail/cpu_features.h` lines 141-149): for EVERY entry
`i`, a zero size is replaced by `DEFAULT_L1_CACHE_SIZE` (the same L1
constant for all four levels), a zero line size by
`DEFAULT_CACHE_LINE_SIZE`, and a zero type by `i + 1`. -/
def withDefaults (c : CacheInfo) (i : Nat) : CacheInfo :=
  ⟨if c.size = 0 then DEFAULT_L1_CACHE_SIZE else c.size,
   if c.line_size = 0 then DEFAULT_CACHE_LINE_SIZE else c.line_size,
   if c.ctype = 0 then i + 1 else c.ctype⟩

/-- `omm::detail::detect_cache_sizes` (Linux path) from
`src/include/omm/detail/cpu_features.h` lines 63-152: the four probed
entries, each passed through the default-substitution loop. -/
def detect_cache_sizes (p : Probe) : List CacheInfo :=
  [withDefaults ⟨p.l1d, p.l1dLine, 0⟩ 0,
   withDefaults ⟨p.l1i, p.l1iLine, 0⟩ 1,
   withDefaults ⟨p.l2, p.l2Line, 0⟩ 2,
   withDefaults ⟨p.l3, p.l3Line, 0⟩ 3]

/-- The four stored magnitudes `G_CACHE_SIZES[L1_CACHE .. CACHE_LINE]`. -/
structure CacheSizes where
  l1 : Nat
  l2 : Nat
  l3 : Nat
  line : Nat
deriving DecidableEq

/-- One iteration of the `switch` in `initialize_cache_sizes`
(`src/include/omm/detail/cpu_features.h` lines 160-176): type 1 (L1 data)
sets `G_L1_CACHE_SIZE` and `G_CACHE_LINE_SIZE`, type 2 (L1 instruction) is
skipped, type 3 sets `G_L2_CACHE_SIZE`, type 4 sets `G_L3_CACHE_SIZE`. -/
def initStep (g : CacheSizes) (c : CacheInfo) : CacheSizes :=
  match c.ctype with
  | 1 => ⟨c.size, g.l2, g.l3, c.line_size⟩
  | 2 => g
  | 3 => ⟨g.l1, c.size, g.l3, g.line⟩
  | 4 => ⟨g.l1, g.l2, c.size, g.line⟩
  | _ => g

/-- `omm::detail::initialize_cache_sizes` from
`src/include/omm/detail/cpu_features.h` lines 157-183: fold the detected
entries into the global array (initially all zero), then replace any value
still zero by its per-level default (lines 179-182). -/
def init_cache_sizes (p : Probe) : CacheSizes :=
  let g := (detect_cache_sizes p).foldl initStep ⟨0, 0, 0, 0⟩
  ⟨if g.l1 > 0 then g.l1 else DEFAULT_L1_CACHE_SIZE,
   if g.l2 > 0 then g.l2 else DEFAULT_L2_CACHE_SIZE,
   if g.l3 > 0 then g.l3 else DEFAULT_L3_CACHE_SIZE,
   if g.line > 0 then g.line else DEFAULT_CACHE_LINE_SIZE⟩

/-- Concrete memory used by witnesses: byte `a` holds `a % 256`. -/
def mem0 : Mem := fun a => a % 256

/-- Concrete configuration: GCC build with both vector kernels compiled in
and a CPU supporting both extensions. -/
def cfgGccAll : BuildCpu := ⟨true, true, Compiler.gcc, true, true⟩

/-- Concrete configuration: GCC build with both vector kernels compiled in
but a CPU supporting neither extension. -/
def cfgGccNoCpu : BuildCpu := ⟨true, true, Compiler.gcc, false, false⟩

/-- Concrete configuration: Clang build with both vector kernels compiled
in but a CPU supporting neither extension. -/
def cfgClangNoCpu : BuildCpu := ⟨true, true, Compiler.clang, false, false⟩

/-- Claim C1: for every implementation choice, every pair of
non-overlapping buffers and every size (0 included), `omm::memcpy` makes
the first `size` destination bytes byte-for-byte equal to the first
`size` source bytes, and the resulting memory is exactly what the
platform bulk-copy primitive would produce.  `64 ≤ L3` records that the
configured L3 threshold is at least one vector width (the standalone
default is 32 MiB; detected or defaulted values are KiB-scale or larger),
which keeps the kernels' guarded size subtractions from wrapping. -/
theorem claim_C1 (impl : MemcpyImpl) (c : BuildCpu) (dest src size L3 : Nat) (m : Mem)
    (hL3 : 64 ≤ L3)
    (hsep : src + size ≤ dest ∨ dest + size ≤ src) :
    (∀ i, i < size → ommMemcpy impl c dest src size L3 m (dest + i) = m (src + i)) ∧
    ommMemcpy impl c dest src size L3 m = memCopy dest src size m := by
  have h := runKernel_eq (dispatch impl c) dest src size L3 m hL3 hsep
  constructor
  · intro i hi
    show runKernel (dispatch impl c) dest src size L3 m (dest + i) = m (src + i)
    rw [h, memCopy_in dest src size m (dest + i) (by omega)]
    congr 1
    omega
  · exact h

theorem claim_C1_witness :
    (64 ≤ (64 : Nat)) ∧ ((0 : Nat) + 70 ≤ 100 ∨ (100 : Nat) + 70 ≤ 0) ∧
    (∀ i, i < 70 → ommMemcpy MemcpyImpl.Auto cfgGccAll 100 0 70 64 mem0 (100 + i) = mem0 (0 + i)) ∧
    ommMemcpy MemcpyImpl.Auto cfgGccAll 100 0 70 64 mem0 = memCopy 100 0 70 mem0 :=
  ⟨by decide, Or.inl (by decide),
   (claim_C1 MemcpyImpl.Auto cfgGccAll 100 0 70 64 mem0 (by decide) (Or.inl (by decide))).1,
   (claim_C1 MemcpyImpl.Auto cfgGccAll 100 0 70 64 mem0 (by decide) (Or.inl (by decide))).2⟩

/-- Claim C2 counterexample: at `size = L3` (both 64 here) the AVX-512
kernel of `memcpy_avx512.h` does not take the delegate-to-bulk-copy fast
path — its test at line 51 is the strict `size < G_L3_CACHE_SIZE` — and
its result is instead computed by the large path (alignment prologue and
vectorized streaming-store loop).  So it is false that every vector
kernel delegates for every `size ≤ L3`. -/
theorem claim_C2_cex :
    (64 : Nat) ≤ 64 ∧ avx512_h_fastPath 64 64 = false ∧
    memcpy_avx512_h 0 1000 64 64 mem0 = largeCopy 64 0 1000 64 mem0 :=
  ⟨by decide, by decide, by rw [memcpy_avx512_h, if_neg (by decide)]⟩

/-- Claim C2 (amended): the AVX2 kernel (`memcpy_avx2.h` line 44) and the
`memcpy_avx512.hpp` variant (line 44) delegate the whole copy to the
bulk-copy primitive whenever `size ≤ L3`; the AVX-512 kernel of
`memcpy_avx512.h` (line 51) delegates exactly when `size < L3`, taking
the vectorized path at `size = L3`. -/
theorem claim_C2_amended (dest src size L3 cl : Nat) (m : Mem) :
    (size ≤ L3 →
      avx2_h_fastPath size L3 = true ∧
      avx512_hpp_fastPath size L3 = true ∧
      memcpy_avx2_h dest src size L3 m = memCopy dest src size m ∧
      memcpy_avx512_hpp dest src size L3 cl m = memCopy dest src size m) ∧
    (size < L3 →
      avx512_h_fastPath size L3 = true ∧
      memcpy_avx512_h dest src size L3 m = memCopy dest src size m) ∧
    (avx512_h_fastPath size L3 = true ↔ size < L3) ∧
    (avx2_h_fastPath size L3 = true ↔ size ≤ L3) ∧
    (avx512_hpp_fastPath size L3 = true ↔ size ≤ L3) := by
  refine ⟨?_, ?_, ?_, ?_, ?_⟩
  · intro h
    refine ⟨by simp [avx2_h_fastPath, h], by simp [avx512_hpp_fastPath, h], ?_, ?_⟩
    · unfold memcpy_avx2_h
      rw [if_pos (show avx2_h_fastPath size L3 = true by simp [avx2_h_fastPath, h])]
    · unfold memcpy_avx512_hpp
      rw [if_pos (show avx512_hpp_fastPath size L3 = true by simp [avx512_hpp_fastPath, h])]
  · intro h
    refine ⟨by simp [avx512_h_fastPath, h], ?_⟩
    unfold memcpy_avx512_h
    rw [if_pos (show avx512_h_fastPath size L3 = true by simp [avx512_h_fastPath, h])]
  · simp [avx512_h_fastPath]
  · simp [avx2_h_fastPath]
  · simp [avx512_hpp_fastPath]

theorem claim_C2_witness :
    ((10 : Nat) ≤ 64) ∧ avx2_h_fastPath 10 64 = true ∧
    memcpy_avx2_h 7 200 10 64 mem0 = memCopy 7 200 10 mem0 ∧
    memcpy_avx512_hpp 7 200 10 64 64 mem0 = memCopy 7 200 10 mem0 ∧
    ((10 : Nat) < 64) ∧ avx512_h_fastPath 10 64 = true ∧
    memcpy_avx512_h 7 200 10 64 mem0 = memCopy 7 200 10 mem0 :=
  ⟨by decide,
   ((claim_C2_amended 7 200 10 64 64 mem0).1 (by decide)).1,
   ((claim_C2_amended 7 200 10 64 64 mem0).1 (by decide)).2.2.1,
   ((claim_C2_amended 7 200 10 64 64 mem0).1 (by decide)).2.2.2,
   by decide,
   ((claim_C2_amended 7 200 10 64 64 mem0).2.1 (by decide)).1,
   ((claim_C2_amended 7 200 10 64 64 mem0).2.1 (by decide)).2⟩

/-- Claim C3 counterexample: with both kernels compiled in (GCC build)
but the running CPU supporting neither extension, explicit
`MemcpyImpl::AVX512` / `AVX2` requests dispatch to the vector kernels,
not to the Standard kernel: the `switch` in `omm::memcpy`
(`memcpy.h` lines 116-130) consults only the `#ifdef`, never the runtime
predicates. -/
theorem claim_C3_cex :
    cpu_supports_avx512f cfgGccNoCpu = false ∧
    cpu_supports_avx2 cfgGccNoCpu = false ∧
    dispatch MemcpyImpl.AVX512 cfgGccNoCpu = Kernel.KAVX512 ∧
    dispatch MemcpyImpl.AVX2 cfgGccNoCpu = Kernel.KAVX2 ∧
    Kernel.KAVX512 ≠ Kernel.KStandard := by decide

/-- Claim C3 (amended): an explicit AVX512/AVX2 request is substituted by
the Standard kernel exactly when the requested kernel is not compiled in;
runtime CPU support is never consulted for explicit requests (the
dispatch is invariant under both runtime support flags), and in the
byte-level model the routed copy is still correct for non-overlapping
buffers in every case. -/
theorem claim_C3_amended (c : BuildCpu) (dest src size L3 : Nat) (m : Mem)
    (hL3 : 64 ≤ L3)
    (hsep : src + size ≤ dest ∨ dest + size ≤ src) :
    (c.compiledAVX512F = false → dispatch MemcpyImpl.AVX512 c = Kernel.KStandard) ∧
    (c.compiledAVX2 = false → dispatch MemcpyImpl.AVX2 c = Kernel.KStandard) ∧
    (c.compiledAVX512F = true → dispatch MemcpyImpl.AVX512 c = Kernel.KAVX512) ∧
    (c.compiledAVX2 = true → dispatch MemcpyImpl.AVX2 c = Kernel.KAVX2) ∧
    (∀ b1 b2 : Bool,
      dispatch MemcpyImpl.AVX512 ⟨c.compiledAVX512F, c.compiledAVX2, c.compiler, b1, b2⟩ =
        dispatch MemcpyImpl.AVX512 c ∧
      dispatch MemcpyImpl.AVX2 ⟨c.compiledAVX512F, c.compiledAVX2, c.compiler, b1, b2⟩ =
        dispatch MemcpyImpl.AVX2 c) ∧
    ommMemcpy MemcpyImpl.AVX512 c dest src size L3 m = memCopy dest src size m ∧
    ommMemcpy MemcpyImpl.AVX2 c dest src size L3 m = memCopy dest src size m := by
  refine ⟨?_, ?_, ?_, ?_, ?_, ?_, ?_⟩
  · intro h; simp [dispatch, h]
  · intro h; simp [dispatch, h]
  · intro h; simp [dispatch, h]
  · intro h; simp [dispatch, h]
  · intro b1 b2; exact ⟨rfl, rfl⟩
  · exact runKernel_eq _ dest src size L3 m hL3 hsep
  · exact runKernel_eq _ dest src size L3 m hL3 hsep

theorem claim_C3_witness :
    (64 ≤ (64 : Nat)) ∧ ((0 : Nat) + 70 ≤ 100 ∨ (100 : Nat) + 70 ≤ 0) ∧
    cfgGccNoCpu.compiledAVX512F = true ∧
    dispatch MemcpyImpl.AVX512 cfgGccNoCpu = Kernel.KAVX512 ∧
    ommMemcpy MemcpyImpl.AVX512 cfgGccNoCpu 100 0 70 64 mem0 = memCopy 100 0 70 mem0 :=
  ⟨by decide, Or.inl (by decide), by decide,
   (claim_C3_amended cfgGccNoCpu 100 0 70 64 mem0 (by decide) (Or.inl (by decide))).2.2.1
     (by decide),
   (claim_C3_amended cfgGccNoCpu 100 0 70 64 mem0 (by decide) (Or.inl (by decide))).2.2.2.2.2.1⟩

/-- Modelled from the spec (§4.4): the `Auto` selection order — the
512-bit kernel if the feature flags report AVX-512F support, else the
256-bit kernel if AVX2 support is reported, else Scalar. -/
def auto_selection_spec (f512 f2 : Bool) : Kernel :=
  if f512 then Kernel.KAVX512
  else if f2 then Kernel.KAVX2
  else Kernel.KStandard

/-- Claim C4: `Auto` dispatch (`get_best_memcpy_impl`, `memcpy.h` lines
93-105) selects exactly per the spec order, with the feature flags given
by `cpu_supports_avx512f` / `cpu_supports_avx2` (which already fold in
the compile-time gating, so the `#ifdef` guards around the branches
change nothing). -/
theorem claim_C4 (c : BuildCpu) :
    dispatch MemcpyImpl.Auto c =
      auto_selection_spec (cpu_supports_avx512f c) (cpu_supports_avx2 c) := by
  rcases c with ⟨c512, c2, comp, s512, s2⟩
  cases comp <;> cases c512 <;> cases c2 <;> cases s512 <;> cases s2 <;> rfl

/-- Claim C5 counterexample: two successive `Auto` calls through
`memcpy.h` perform two rounds of feature-flag queries — the second call
re-queries instead of reusing a memoized selection, because
`omm::memcpy` / `omm::memcpy_auto` invoke `get_best_memcpy_impl()` afresh
on every call and this translation unit holds no memoized state. -/
theorem claim_C5_cex :
    (autoCalls cfgGccAll 1 ⟨0⟩).queryCount = 1 ∧
    (autoCalls cfgGccAll 2 ⟨0⟩).queryCount = 2 ∧
    (autoCalls cfgGccAll 2 ⟨0⟩).queryCount ≠ (autoCalls cfgGccAll 1 ⟨0⟩).queryCount := by
  decide

/-- Claim C5 (amended): in `memcpy.h` the `Auto` selection is recomputed
on every call — after `n` `Auto` calls the feature predicates have been
evaluated `n * get_best_queries c` times, with at least one query per
call whenever a vector kernel is compiled in.  Because the predicates are
pure functions of the fixed build/CPU configuration, every `Auto` call
still routes to the same kernel, `get_best_memcpy_impl c`.  (The
`memcpy_impl.hpp` variant, by contrast, computes `best_memcpy_impl` once
at static initialization and `Auto` calls only read that global.) -/
theorem claim_C5_amended (c : BuildCpu) (st : AutoState) (n : Nat) :
    (memcpy_auto_call c st).1 = get_best_memcpy_impl c ∧
    (autoCalls c n st).queryCount = st.queryCount + n * get_best_queries c ∧
    ((c.compiledAVX512F = true ∨ c.compiledAVX2 = true) → 0 < get_best_queries c) := by
  refine ⟨rfl, ?_, ?_⟩
  · induction n generalizing st with
    | zero => simp [autoCalls]
    | succ n ih =>
      show (autoCalls c n (memcpy_auto_call c st).2).queryCount
          = st.queryCount + (n + 1) * get_best_queries c
      rw [ih]
      show st.queryCount + get_best_queries c + n * get_best_queries c
          = st.queryCount + (n + 1) * get_best_queries c
      rw [Nat.succ_mul]
      omega
  · intro h
    unfold get_best_queries
    rcases h with h | h <;> rw [h] <;> split_ifs <;> simp_all

theorem claim_C5_witness :
    (memcpy_auto_call cfgGccAll ⟨5⟩).1 = get_best_memcpy_impl cfgGccAll ∧
    (autoCalls cfgGccAll 3 ⟨5⟩).queryCount = 5 + 3 * get_best_queries cfgGccAll ∧
    (cfgGccAll.compiledAVX512F = true ∨ cfgGccAll.compiledAVX2 = true) ∧
    0 < get_best_queries cfgGccAll :=
  ⟨(claim_C5_amended cfgGccAll ⟨5⟩ 3).1,
   (claim_C5_amended cfgGccAll ⟨5⟩ 3).2.1,
   Or.inl (by decide),
   (claim_C5_amended cfgGccAll ⟨5⟩ 3).2.2 (Or.inl (by decide))⟩

/-- Claim C6: for every implementation choice and every size, the copy
writes no byte outside `[dest, dest + size)`: every outside byte — in
particular the byte `dest + size` immediately after the destination
range — keeps its pre-call value, and a call with `size = 0` leaves all
memory unchanged.  This needs no non-overlap hypothesis: the kernels
write only within the destination range regardless of what they read. -/
theorem claim_C6 (impl : MemcpyImpl) (c : BuildCpu) (dest src size L3 : Nat) (m : Mem)
    (hL3 : 64 ≤ L3) :
    (∀ a, (a < dest ∨ dest + size ≤ a) → ommMemcpy impl c dest src size L3 m a = m a) ∧
    ommMemcpy impl c dest src size L3 m (dest + size) = m (dest + size) ∧
    ommMemcpy impl c dest src 0 L3 m = m := by
  refine ⟨?_, ?_, ?_⟩
  · intro a ha
    exact runKernel_frame (dispatch impl c) dest src size L3 m a hL3 ha
  · exact runKernel_frame (dispatch impl c) dest src size L3 m (dest + size) hL3
      (Or.inr (by omega))
  · have hsep0 : src + 0 ≤ dest ∨ dest + 0 ≤ src := by
      cases Nat.le_total src dest with
      | inl h => exact Or.inl (by omega)
      | inr h => exact Or.inr (by omega)
    have h := runKernel_eq (dispatch impl c) dest src 0 L3 m hL3 hsep0
    show runKernel (dispatch impl c) dest src 0 L3 m = m
    rw [h, memCopy_zero]

theorem claim_C6_witness :
    (64 ≤ (64 : Nat)) ∧
    ommMemcpy MemcpyImpl.AVX512 cfgGccAll 100 0 70 64 mem0 170 = mem0 170 ∧
    ommMemcpy MemcpyImpl.AVX512 cfgGccAll 100 0 0 64 mem0 = mem0 :=
  ⟨by decide,
   (claim_C6 MemcpyImpl.AVX512 cfgGccAll 100 0 70 64 mem0 (by decide)).2.1,
   (claim_C6 MemcpyImpl.AVX512 cfgGccAll 100 0 70 64 mem0 (by decide)).2.2⟩

theorem impl_avx512f_testBit (ebx : Nat) :
    impl_cpu_supports_avx512f ebx = ebx.testBit 16 := by
  unfold impl_cpu_supports_avx512f
  rw [Nat.shiftLeft_eq, one_mul, Nat.and_two_pow]
  cases h : ebx.testBit 16 <;> simp [h]

theorem impl_avx2_testBit (ebx : Nat) :
    impl_cpu_supports_avx2 ebx = ebx.testBit 5 := by
  unfold impl_cpu_supports_avx2
  rw [Nat.shiftLeft_eq, one_mul, Nat.and_two_pow]
  cases h : ebx.testBit 5 <;> simp [h]

/-- Claim C7 counterexample: in a Clang (or MSVC) build with `__AVX512F__`
and `__AVX2__` defined, `cpu_supports_avx512f` / `cpu_supports_avx2`
(`cpu_features.h` lines 206-208 and 222-224) return `true` even though
the executing CPU supports neither extension: on those compilers the
functions return `true` merely because the binary was compiled with the
extension enabled, with no runtime query. -/
theorem claim_C7_cex :
    cfgClangNoCpu.cpuAVX512F = false ∧ cpu_supports_avx512f cfgClangNoCpu = true ∧
    cfgClangNoCpu.cpuAVX2 = false ∧ cpu_supports_avx2 cfgClangNoCpu = true := by decide

/-- Claim C7 (amended): only under GCC do the `cpu_features.h` predicates
perform a true runtime query (true iff compiled in AND the CPU reports
support); under Clang and MSVC they return exactly the compile-time flag,
with no runtime check.  The `memcpy_impl.hpp` variants, by contrast,
always perform the CPUID query (bit 16 / bit 5 of leaf-7 EBX). -/
theorem claim_C7_amended (c : BuildCpu) (ebx : Nat) :
    (c.compiler = Compiler.gcc →
      (cpu_supports_avx512f c = true ↔ c.compiledAVX512F = true ∧ c.cpuAVX512F = true) ∧
      (cpu_supports_avx2 c = true ↔ c.compiledAVX2 = true ∧ c.cpuAVX2 = true)) ∧
    ((c.compiler = Compiler.clang ∨ c.compiler = Compiler.msvc) →
      cpu_supports_avx512f c = c.compiledAVX512F ∧
      cpu_supports_avx2 c = c.compiledAVX2) ∧
    impl_cpu_supports_avx512f ebx = ebx.testBit 16 ∧
    impl_cpu_supports_avx2 ebx = ebx.testBit 5 := by
  refine ⟨?_, ?_, impl_avx512f_testBit ebx, impl_avx2_testBit ebx⟩
  · rcases c with ⟨c512, c2, comp, s512, s2⟩
    cases comp <;> cases c512 <;> cases c2 <;> cases s512 <;> cases s2 <;> decide
  · rcases c with ⟨c512, c2, comp, s512, s2⟩
    cases comp <;> cases c512 <;> cases c2 <;> cases s512 <;> cases s2 <;> decide

theorem claim_C7_witness :
    cfgGccNoCpu.compiler = Compiler.gcc ∧
    (cpu_supports_avx512f cfgGccNoCpu = true ↔
      cfgGccNoCpu.compiledAVX512F = true ∧ cfgGccNoCpu.cpuAVX512F = true) ∧
    impl_cpu_supports_avx512f 65536 = Nat.testBit 65536 16 :=
  ⟨by decide,
   ((claim_C7_amended cfgGccNoCpu 65536).1 (by decide)).1,
   (claim_C7_amended cfgGccNoCpu 65536).2.2.1⟩

/-- Claim C8: evaluation at the failing input, plus the half of the claim
that does hold.  When probing yields zero for every level (e.g. `lscpu`
unavailable or unparseable), the stored sizes become 32 KiB for ALL of
L1, L2 and L3: the default-substitution loop of `detect_cache_sizes`
(`cpu_features.h` line 143) substitutes `DEFAULT_L1_CACHE_SIZE` for every
level, so the per-level `DEFAULT_L2_CACHE_SIZE` / `DEFAULT_L3_CACHE_SIZE`
fallbacks in `initialize_cache_sizes` (lines 180-181) are unreachable and
the claimed 256 KiB / 8 MiB defaults are never produced.  Strict
positivity of all four stored magnitudes does hold for every probe
result. -/
theorem claim_C8_bug :
    init_cache_sizes ⟨0, 0, 0, 0, 0, 0, 0, 0⟩ = ⟨32 * 1024, 32 * 1024, 32 * 1024, 64⟩ ∧
    (32 * 1024 : Nat) ≠ 256 * 1024 ∧
    (32 * 1024 : Nat) ≠ 8 * 1024 * 1024 ∧
    (∀ p : Probe, 0 < (init_cache_sizes p).l1 ∧ 0 < (init_cache_sizes p).l2 ∧
      0 < (init_cache_sizes p).l3 ∧ 0 < (init_cache_sizes p).line) := by
  refine ⟨by decide, by decide, by decide, ?_⟩
  intro p
  unfold init_cache_sizes
  refine ⟨?_, ?_, ?_, ?_⟩ <;>
    · show 0 < if _ > 0 then _ else _
      split_ifs with h
      · exact h
      · decide

/-- Claim C10: in the `memcpy_impl.hpp` variant `detail::memcpy_avx512`
has an empty (fully commented-out) body, so it writes no byte for any
input, and an `omm::memcpy` call with `MemcpyImpl::AVX512` routed through
this variant leaves memory — hence the entire destination — unchanged for
every size. -/
theorem claim_C10 (best : ImplKernel) (dst src size : Nat) (m : Mem) :
    impl_memcpy_avx512 dst src size m = m ∧
    ommMemcpy_impl MemcpyImpl.AVX512 best dst src size m = m :=
  ⟨rfl, rfl⟩
